import Mathlib

/-!
# redis_gl: key schema, model registry and interaction engine

A shallow embedding of `include/redis_gl/redis_gl.h` (namespace
`redis_gl::simulator`) together with the properties of its key derivation,
registration operations and interaction-to-pose translation.

Conventions of the embedding:
* `std::string` is `String`; concatenation `+` is `++`.
* `double` arithmetic is taken exact, over an arbitrary linearly ordered field
  `R`; the square root, sine and cosine of the numeric library are parameters.
* `nlohmann::json` values are the inductive `Json`; accessors that throw
  return `Except JsonError`.
* the store client `ctrl_utils::RedisClient` is an explicit state: the server
  side contents, the queue of commands not yet flushed, the replies to scans
  and the log of every call made on the client.
-/

namespace redis_gl

namespace webapp

/-- `webapp::KEY_PREFIX`. -/
def KEY_PREFIX : String := "webapp::"

/-- `webapp::KEY_RESOURCES_PREFIX`. -/
def KEY_RESOURCES_PREFIX : String := KEY_PREFIX ++ "resources::"

end webapp

namespace simulator

/-- `simulator::kName`. -/
def kName : String := "simulator"

/-- `simulator::KEY_PREFIX`. -/
def KEY_PREFIX : String := webapp.KEY_PREFIX ++ kName ++ "::"

/-- `simulator::KEY_ARGS`. -/
def KEY_ARGS : String := KEY_PREFIX ++ "args"

/-- `simulator::KEY_INTERACTION`. -/
def KEY_INTERACTION : String := KEY_PREFIX ++ "interaction"

/-- `simulator::KEY_RESOURCES`. -/
def KEY_RESOURCES : String := webapp.KEY_RESOURCES_PREFIX ++ kName

/-- `struct ModelKeys`: the namespace and the four entity-kind key prefixes. -/
structure ModelKeys where
  key_namespace : String := ""
  key_robots_prefix : String := ""
  key_objects_prefix : String := ""
  key_trajectories_prefix : String := ""
  key_cameras_prefix : String := ""
  deriving DecidableEq, Repr

/-- The constructor `ModelKeys(const std::string& key_namespace)`. -/
def ModelKeys.ofNamespace (key_namespace : String) : ModelKeys where
  key_namespace := key_namespace
  key_robots_prefix := key_namespace ++ "::model::robot::"
  key_objects_prefix := key_namespace ++ "::model::object::"
  key_trajectories_prefix := key_namespace ++ "::model::trajectory::"
  key_cameras_prefix := key_namespace ++ "::model::camera::"

/-- The four kinds of entity a key can belong to. -/
inductive EntityKind where
  | robot
  | object
  | trajectory
  | camera
  deriving DecidableEq, Repr

/-- The member of `ModelKeys` that the registration function of a kind
prepends to the entity name. -/
def ModelKeys.kindPrefix (model_keys : ModelKeys) : EntityKind → String
  | .robot => model_keys.key_robots_prefix
  | .object => model_keys.key_objects_prefix
  | .trajectory => model_keys.key_trajectories_prefix
  | .camera => model_keys.key_cameras_prefix

/-- The characters that follow the namespace in the prefix of a kind. -/
def kindSegment : EntityKind → List Char
  | .robot => "::model::robot::".data
  | .object => "::model::object::".data
  | .trajectory => "::model::trajectory::".data
  | .camera => "::model::camera::".data

/-- The key an entity is registered under: `<kind prefix> + name`, as in
`RegisterRobot`, `RegisterObject`, `RegisterTrajectory`, `RegisterCamera`. -/
def entityKey (key_namespace : String) (kind : EntityKind) (name : String) : String :=
  (ModelKeys.ofNamespace key_namespace).kindPrefix kind ++ name

/-- Whether the string `s` starts with the string `p`. -/
def startsWith (s p : String) : Bool := p.data.isPrefixOf s.data

/-- A string without the character `:`. -/
def colonFree (s : String) : Prop := ':' ∉ s.data

instance (s : String) : Decidable (colonFree s) := by
  unfold colonFree; infer_instance

/-! ## JSON values (`nlohmann::json`) -/

/-- The exceptions of the JSON library that the embedded code can raise. -/
inductive JsonError where
  | type_error
  | out_of_range (key : String)
  deriving DecidableEq, Repr

/-- A JSON value. An object is the list of its members, each key at most once;
members are reached by key only, so their order carries no meaning. -/
inductive Json where
  | null
  | boolean (b : Bool)
  | number (n : Int)
  | string (s : String)
  | array (elems : List Json)
  | object (members : List (String × Json))

/-- Insertion of a member into an object; an existing member of the same key
is replaced. -/
def insertMember {α : Type} (key : String) (value : α) :
    List (String × α) → List (String × α)
  | [] => [(key, value)]
  | (k, w) :: rest =>
    if key = k then (key, value) :: rest
    else (k, w) :: insertMember key value rest

/-- The assignment `json[key] = value`: `null` becomes an object first, an
object gets the member, any other value raises `type_error`. -/
def Json.set (json : Json) (key : String) (value : Json) : Except JsonError Json :=
  match json with
  | .null => .ok (.object [(key, value)])
  | .object members => .ok (.object (insertMember key value members))
  | _ => .error .type_error

/-- The checked access `json.at(key)`. -/
def Json.at (json : Json) (key : String) : Except JsonError Json :=
  match json with
  | .object members =>
    match members.lookup key with
    | some value => .ok value
    | none => .error (.out_of_range key)
  | _ => .error .type_error

/-- The conversion `json.get<std::string>()`. -/
def Json.get_string (json : Json) : Except JsonError String :=
  match json with
  | .string s => .ok s
  | _ => .error .type_error

/-! ## Descriptors -/

/-- `struct ObjectModel`; `Graphics` stands for `spatial_dyn::Graphics`. -/
structure ObjectModel (Graphics : Type) where
  name : String
  graphics : List Graphics
  key_pos : String
  key_ori : String

/-- `from_json(const nlohmann::json&, ObjectModel&)`; `graphics_from_json` is
the decoder of `std::vector<spatial_dyn::Graphics>` of the external library. -/
def ObjectModel.from_json {Graphics : Type}
    (graphics_from_json : Json → Except JsonError (List Graphics))
    (json : Json) : Except JsonError (ObjectModel Graphics) := do
  let name ← (← json.at "name").get_string
  let graphics ← graphics_from_json (← json.at "graphics")
  let key_pos ← (← json.at "key_pos").get_string
  let key_ori ← (← json.at "key_ori").get_string
  pure { name := name, graphics := graphics, key_pos := key_pos, key_ori := key_ori }

/-- `to_json(nlohmann::json&, const ObjectModel&)`; `graphics_to_json` is the
encoder of `std::vector<spatial_dyn::Graphics>` of the external library. -/
def ObjectModel.to_json {Graphics : Type} (graphics_to_json : List Graphics → Json)
    (json : Json) (object : ObjectModel Graphics) : Except JsonError Json := do
  let json ← json.set "name" (.string object.name)
  let json ← json.set "graphics" (graphics_to_json object.graphics)
  let json ← json.set "key_pos" (.string object.key_pos)
  json.set "key_ori" (.string object.key_ori)

/-- `struct CameraModel`. -/
structure CameraModel where
  name : String
  key_pos : String
  key_ori : String
  key_intrinsic : String
  key_depth_image : String
  key_rgb_image : String
  deriving DecidableEq, Repr

/-- `from_json(const nlohmann::json&, CameraModel&)`. -/
def CameraModel.from_json (json : Json) : Except JsonError CameraModel := do
  let name ← (← json.at "name").get_string
  let key_pos ← (← json.at "key_pos").get_string
  let key_ori ← (← json.at "key_ori").get_string
  let key_intrinsic ← (← json.at "key_intrinsic").get_string
  let key_depth_image ← (← json.at "key_depth_image").get_string
  let key_rgb_image ← (← json.at "key_rgb_image").get_string
  pure { name := name, key_pos := key_pos, key_ori := key_ori,
         key_intrinsic := key_intrinsic, key_depth_image := key_depth_image,
         key_rgb_image := key_rgb_image }

/-- `to_json(nlohmann::json&, const CameraModel&)`. -/
def CameraModel.to_json (json : Json) (camera : CameraModel) : Except JsonError Json := do
  let json ← json.set "name" (.string camera.name)
  let json ← json.set "key_pos" (.string camera.key_pos)
  let json ← json.set "key_ori" (.string camera.key_ori)
  let json ← json.set "key_intrinsic" (.string camera.key_intrinsic)
  let json ← json.set "key_depth_image" (.string camera.key_depth_image)
  json.set "key_rgb_image" (.string camera.key_rgb_image)

/-- `struct RobotModel`; `ArticulatedBody` stands for
`spatial_dyn::ArticulatedBody`, held through a pointer that is not null. -/
structure RobotModel (ArticulatedBody : Type) where
  articulated_body : ArticulatedBody
  key_q : String
  key_pos : String
  key_ori : String

/-- `from_json(const nlohmann::json&, RobotModel&)`; `ab_from_json` is the
decoder of `spatial_dyn::ArticulatedBody` of the external library. -/
def RobotModel.from_json {ArticulatedBody : Type}
    (ab_from_json : Json → Except JsonError ArticulatedBody)
    (json : Json) : Except JsonError (RobotModel ArticulatedBody) := do
  let articulated_body ← ab_from_json (← json.at "articulated_body")
  let key_q ← (← json.at "key_q").get_string
  let key_pos ← (← json.at "key_pos").get_string
  let key_ori ← (← json.at "key_ori").get_string
  pure { articulated_body := articulated_body, key_q := key_q, key_pos := key_pos,
         key_ori := key_ori }

/-- `to_json(nlohmann::json&, const RobotModel&)`; `ab_to_json` is the encoder
of `spatial_dyn::ArticulatedBody` of the external library. -/
def RobotModel.to_json {ArticulatedBody : Type} (ab_to_json : ArticulatedBody → Json)
    (json : Json) (robot : RobotModel ArticulatedBody) : Except JsonError Json := do
  let json ← json.set "articulated_body" (ab_to_json robot.articulated_body)
  let json ← json.set "key_q" (.string robot.key_q)
  let json ← json.set "key_pos" (.string robot.key_pos)
  json.set "key_ori" (.string robot.key_ori)

/-! ## The store client (`ctrl_utils::RedisClient`) -/

/-- A command of the store client. -/
inductive Command where
  | set (key : String) (value : Json)
  | del (keys : List String)
  | sadd (key : String) (values : List String)
  | srem (key : String) (values : List String)
  | scan (pattern : String)

/-- Whether a command is a scan, the one command that has a reply the
embedded code reads. -/
def Command.isScan : Command → Bool
  | .scan _ => true
  | _ => false

/-- A call made on the client: a queued command, or the flush `commit()`. -/
inductive Call where
  | command (c : Command)
  | commit

/-- A value held by the store: a JSON document or a set of strings. -/
inductive Value where
  | document (json : Json)
  | members (values : List String)

/-- Modelled from the spec: which keys a scan pattern selects in
`ctrl_utils::RedisClient::scan`, a client that is not part of this repository.
A pattern `<text>*` selects exactly the keys that start with `<text>`; any
other pattern selects the key equal to it. -/
def scanMatches (pattern key : String) : Bool :=
  match pattern.data.getLast? with
  | some '*' => pattern.data.dropLast.isPrefixOf key.data
  | _ => pattern == key

/-- Modelled from the spec: the effect of one flushed command of
`ctrl_utils::RedisClient` on the contents of the store and on the list of scan
replies. `set` writes the document, `del` removes the given keys (a key that
is absent is skipped), `sadd` and `srem` update a set, `scan` replies with the
stored keys its pattern selects. -/
def execCommand (state : List (String × Value) × List (List String)) :
    Command → List (String × Value) × List (List String)
  | .set key value => (insertMember key (.document value) state.1, state.2)
  | .del keys => (state.1.filter (fun kv => !keys.contains kv.1), state.2)
  | .sadd key values =>
    match state.1.lookup key with
    | none => (insertMember key (.members values.eraseDups) state.1, state.2)
    | some (.members old) =>
      (insertMember key (.members (old ++ (values.eraseDups.filter (fun v => !old.contains v))))
        state.1, state.2)
    | some (.document _) => state
  | .srem key values =>
    match state.1.lookup key with
    | some (.members old) =>
      (insertMember key (.members (old.filter (fun v => !values.contains v))) state.1, state.2)
    | _ => state
  | .scan pattern =>
    (state.1, state.2 ++ [(state.1.map Prod.fst).filter (scanMatches pattern)])

/-- Modelled from the spec: the state of `ctrl_utils::RedisClient` and of the
store behind it, with no other writer. Commands are queued in `pending` and
take effect, in order, at `commit()`; `replies` holds the answers to the scans
flushed so far; `log` records every call made on the client. -/
structure RedisClient where
  store : List (String × Value) := []
  pending : List Command := []
  replies : List (List String) := []
  log : List Call := []

/-- The queueing of a command. -/
def RedisClient.issue (redis : RedisClient) (c : Command) : RedisClient :=
  { redis with pending := redis.pending ++ [c], log := redis.log ++ [.command c] }

/-- `redis.set(key, value)`. -/
def RedisClient.set (redis : RedisClient) (key : String) (value : Json) : RedisClient :=
  redis.issue (.set key value)

/-- `redis.del(keys)`. -/
def RedisClient.del (redis : RedisClient) (keys : List String) : RedisClient :=
  redis.issue (.del keys)

/-- `redis.sadd(key, values)`. -/
def RedisClient.sadd (redis : RedisClient) (key : String) (values : List String) :
    RedisClient :=
  redis.issue (.sadd key values)

/-- `redis.srem(key, values)`. -/
def RedisClient.srem (redis : RedisClient) (key : String) (values : List String) :
    RedisClient :=
  redis.issue (.srem key values)

/-- `redis.scan(pattern)`: queues the scan and hands out a future, the position
its reply will take among the replies. -/
def RedisClient.scan (redis : RedisClient) (pattern : String) : RedisClient × Nat :=
  (redis.issue (.scan pattern), redis.replies.length + redis.pending.countP Command.isScan)

/-- `redis.commit()`: the queued commands take effect in order. -/
def RedisClient.commit (redis : RedisClient) : RedisClient :=
  let state := redis.pending.foldl execCommand (redis.store, redis.replies)
  { store := state.1, pending := [], replies := state.2, log := redis.log ++ [.commit] }

/-- `future.get()`: the reply of a scan, `none` while the scan is not flushed
(the call would not return). -/
def RedisClient.get (redis : RedisClient) (future : Nat) : Option (List String) :=
  redis.replies[future]?

/-- A read of the document stored under a key, as another client sees it. -/
def RedisClient.read (redis : RedisClient) (key : String) : Option Json :=
  match redis.store.lookup key with
  | some (.document json) => some json
  | _ => none

/-- The keys the store holds. -/
def RedisClient.keys (redis : RedisClient) : List String :=
  redis.store.map Prod.fst

/-- The log of a client after an operation that honours its flag: the one
command of the operation, then `commit()` exactly when `commit` is set. -/
def honoured (log : List Call) (c : Command) (commit : Bool) : List Call :=
  let log := log ++ [.command c]
  if commit then log ++ [.commit] else log

/-! ## Model registry -/

/-- `RegisterResourcePath`. -/
def RegisterResourcePath (redis : RedisClient) (path : String) (commit : Bool := false) :
    RedisClient :=
  let redis := redis.sadd KEY_RESOURCES [path]
  if commit then redis.commit else redis

/-- `UnregisterResourcePath`. -/
def UnregisterResourcePath (redis : RedisClient) (path : String) (commit : Bool := false) :
    RedisClient :=
  let redis := redis.srem KEY_RESOURCES [path]
  if commit then redis.commit else redis

/-- `RegisterModelKeys`. -/
def RegisterModelKeys (redis : RedisClient) (model_keys : ModelKeys)
    (commit : Bool := false) : Except JsonError RedisClient := do
  let args := Json.null
  let args ← args.set "key_robots_prefix" (.string model_keys.key_robots_prefix)
  let args ← args.set "key_objects_prefix" (.string model_keys.key_objects_prefix)
  let args ← args.set "key_trajectories_prefix" (.string model_keys.key_trajectories_prefix)
  let args ← args.set "key_cameras_prefix" (.string model_keys.key_cameras_prefix)
  let redis := redis.set (KEY_ARGS ++ "::" ++ model_keys.key_namespace) args
  pure (if commit then redis.commit else redis)

/-- `UnregisterModelKeys`. -/
def UnregisterModelKeys (redis : RedisClient) (model_keys : ModelKeys)
    (commit : Bool := false) : RedisClient :=
  let redis := redis.del [KEY_ARGS ++ "::" ++ model_keys.key_namespace]
  if commit then redis.commit else redis

/-- `ClearModelKeys`: four scans, a flush, one delete per reply, and a flush
when `commit` is set. The result is `none` when a reply is read before it
exists. -/
def ClearModelKeys (redis : RedisClient) (model_keys : ModelKeys) (commit : Bool := true) :
    Option RedisClient := do
  let (redis, fut_robots) := redis.scan (model_keys.key_robots_prefix ++ "*")
  let (redis, fut_objects) := redis.scan (model_keys.key_objects_prefix ++ "*")
  let (redis, fut_trajectories) := redis.scan (model_keys.key_trajectories_prefix ++ "*")
  let (redis, fut_cameras) := redis.scan (model_keys.key_cameras_prefix ++ "*")
  let fut_keys := [fut_robots, fut_objects, fut_trajectories, fut_cameras]
  let redis := redis.commit
  let redis ← fut_keys.foldlM
    (fun (redis : RedisClient) fut_keys_batch => do
      let keys_batch ← redis.get fut_keys_batch
      pure (redis.del keys_batch))
    redis
  pure (if commit then redis.commit else redis)

/-- `RegisterRobot(redis, model_keys, robot, commit)`; `ab_name` reads
`articulated_body->name`. -/
def RegisterRobot {ArticulatedBody : Type} (ab_name : ArticulatedBody → String)
    (ab_to_json : ArticulatedBody → Json) (redis : RedisClient) (model_keys : ModelKeys)
    (robot : RobotModel ArticulatedBody) (commit : Bool := false) :
    Except JsonError RedisClient := do
  let json ← RobotModel.to_json ab_to_json .null robot
  let redis := redis.set (model_keys.key_robots_prefix ++ ab_name robot.articulated_body) json
  pure (if commit then redis.commit else redis)

/-- `RegisterRobot(redis, model_keys, ab, key_q, key_pos, key_ori, commit)`. -/
def RegisterRobotFields {ArticulatedBody : Type} (ab_name : ArticulatedBody → String)
    (ab_to_json : ArticulatedBody → Json) (redis : RedisClient) (model_keys : ModelKeys)
    (ab : ArticulatedBody) (key_q : String) (key_pos : String := "") (key_ori : String := "")
    (commit : Bool := false) : Except JsonError RedisClient := do
  let model := Json.null
  let model ← model.set "articulated_body" (ab_to_json ab)
  let model ← model.set "key_q" (.string key_q)
  let model ← model.set "key_pos" (.string key_pos)
  let model ← model.set "key_ori" (.string key_ori)
  let redis := redis.set (model_keys.key_robots_prefix ++ ab_name ab) model
  pure (if commit then redis.commit else redis)

/-- `RegisterObject(redis, model_keys, name, graphics, key_pos, key_ori, commit)`. -/
def RegisterObjectFields {Graphics : Type} (graphics_to_json : List Graphics → Json)
    (redis : RedisClient) (model_keys : ModelKeys) (name : String) (graphics : List Graphics)
    (key_pos : String) (key_ori : String := "") (commit : Bool := false) :
    Except JsonError RedisClient := do
  let model := Json.null
  let model ← model.set "graphics" (graphics_to_json graphics)
  let model ← model.set "key_pos" (.string key_pos)
  let model ← model.set "key_ori" (.string key_ori)
  let redis := redis.set (model_keys.key_objects_prefix ++ name) model
  pure (if commit then redis.commit else redis)

/-- `RegisterObject(redis, model_keys, graphics, key_pos, key_ori, commit)` for
one graphics primitive; `graphics_name` reads `graphics.name`. -/
def RegisterObjectGraphics {Graphics : Type} (graphics_name : Graphics → String)
    (graphics_to_json : List Graphics → Json)
    (redis : RedisClient) (model_keys : ModelKeys) (graphics : Graphics)
    (key_pos : String) (key_ori : String := "") (commit : Bool := false) :
    Except JsonError RedisClient := do
  let model := Json.null
  let model ← model.set "graphics" (graphics_to_json [graphics])
  let model ← model.set "key_pos" (.string key_pos)
  let model ← model.set "key_ori" (.string key_ori)
  let redis := redis.set (model_keys.key_objects_prefix ++ graphics_name graphics) model
  pure (if commit then redis.commit else redis)

/-- `RegisterObject(redis, model_keys, object, commit)`. The body ends after the
`set`: the parameter `commit` is not read. -/
def RegisterObject {Graphics : Type} (graphics_to_json : List Graphics → Json)
    (redis : RedisClient) (model_keys : ModelKeys) (object : ObjectModel Graphics)
    (_commit : Bool := false) : Except JsonError RedisClient := do
  let json ← ObjectModel.to_json graphics_to_json .null object
  pure (redis.set (model_keys.key_objects_prefix ++ object.name) json)

/-- `RegisterTrajectory`. -/
def RegisterTrajectory (redis : RedisClient) (model_keys : ModelKeys) (name : String)
    (key_pos : String) (commit : Bool := false) : Except JsonError RedisClient := do
  let model := Json.null
  let model ← model.set "key_pos" (.string key_pos)
  let redis := redis.set (model_keys.key_trajectories_prefix ++ name) model
  pure (if commit then redis.commit else redis)

/-- `RegisterCamera(redis, model_keys, name, key_pos, key_ori, key_intrinsic,
key_depth_image, key_rgb_image, commit)`. -/
def RegisterCameraFields (redis : RedisClient) (model_keys : ModelKeys) (name : String)
    (key_pos key_ori key_intrinsic key_depth_image : String) (key_rgb_image : String := "")
    (commit : Bool := false) : Except JsonError RedisClient := do
  let model := Json.null
  let model ← model.set "key_pos" (.string key_pos)
  let model ← model.set "key_ori" (.string key_ori)
  let model ← model.set "key_intrinsic" (.string key_intrinsic)
  let model ← model.set "key_depth_image" (.string key_depth_image)
  let model ← model.set "key_rgb_image" (.string key_rgb_image)
  let redis := redis.set (model_keys.key_cameras_prefix ++ name) model
  pure (if commit then redis.commit else redis)

/-- `RegisterCamera(redis, model_keys, camera, commit)`. -/
def RegisterCamera (redis : RedisClient) (model_keys : ModelKeys) (camera : CameraModel)
    (commit : Bool := false) : Except JsonError RedisClient := do
  let json ← CameraModel.to_json .null camera
  let redis := redis.set (model_keys.key_cameras_prefix ++ camera.name) json
  pure (if commit then redis.commit else redis)

/-! ## Vectors, rotations and spatial forces (`Eigen`, `spatial_dyn`) -/

/-- `Eigen::Vector3d`, with exact coefficients in `R`. -/
structure Vec3 (R : Type) where
  x : R
  y : R
  z : R
  deriving DecidableEq, Repr

namespace Vec3

variable {R : Type} [LinearOrderedField R]

/-- `Eigen::Vector3d::Zero()`. -/
def Zero : Vec3 R := ⟨0, 0, 0⟩

/-- `Eigen::Vector3d::Unit(idx)` for `idx` 0, 1, 2. -/
def Unit (idx : Nat) : Vec3 R :=
  ⟨if idx = 0 then 1 else 0, if idx = 1 then 1 else 0, if idx = 2 then 1 else 0⟩

/-- The sum `a + b`. -/
def add (a b : Vec3 R) : Vec3 R := ⟨a.x + b.x, a.y + b.y, a.z + b.z⟩

/-- The difference `a - b`. -/
def sub (a b : Vec3 R) : Vec3 R := ⟨a.x - b.x, a.y - b.y, a.z - b.z⟩

/-- The product `s * v` of a scalar and a vector. -/
def smul (s : R) (v : Vec3 R) : Vec3 R := ⟨s * v.x, s * v.y, s * v.z⟩

/-- The quotient `v / s` of a vector by a scalar. -/
def sdiv (v : Vec3 R) (s : R) : Vec3 R := ⟨v.x / s, v.y / s, v.z / s⟩

/-- `a.cross(b)`. -/
def cross (a b : Vec3 R) : Vec3 R :=
  ⟨a.y * b.z - a.z * b.y, a.z * b.x - a.x * b.z, a.x * b.y - a.y * b.x⟩

/-- `v.squaredNorm()`. -/
def squaredNorm (v : Vec3 R) : R := v.x * v.x + v.y * v.y + v.z * v.z

/-- `v.norm()`, the square root being that of the numeric library. -/
def norm (sqrt : R → R) (v : Vec3 R) : R := sqrt v.squaredNorm

/-- `v.normalized()`: the vector over its norm, the vector itself when its
squared norm is not positive. -/
def normalized (sqrt : R → R) (v : Vec3 R) : Vec3 R :=
  let z := v.squaredNorm
  if z > 0 then v.sdiv (sqrt z) else v

end Vec3

/-- `Eigen::Quaterniond`. -/
structure Quaternion (R : Type) where
  w : R
  x : R
  y : R
  z : R
  deriving DecidableEq, Repr

/-- `Eigen::AngleAxisd`. -/
structure AngleAxis (R : Type) where
  angle : R
  axis : Vec3 R
  deriving DecidableEq, Repr

/-- `Eigen::Isometry3d`: the rows of the rotation matrix and the translation. -/
structure Isometry3 (R : Type) where
  row0 : Vec3 R
  row1 : Vec3 R
  row2 : Vec3 R
  translation : Vec3 R
  deriving DecidableEq, Repr

/-- `spatial_dyn::SpatialForced`: a force and a moment. -/
structure SpatialForce (R : Type) where
  linear : Vec3 R
  angular : Vec3 R
  deriving DecidableEq, Repr

section Rotations

variable {R : Type} [LinearOrderedField R]

/-- `Eigen::AngleAxisd::Identity()`: the angle 0 about the x-axis. -/
def AngleAxis.Identity : AngleAxis R := ⟨0, Vec3.Unit 0⟩

/-- The product of two quaternions. -/
def Quaternion.mul (a b : Quaternion R) : Quaternion R :=
  ⟨a.w * b.w - a.x * b.x - a.y * b.y - a.z * b.z,
   a.w * b.x + a.x * b.w + a.y * b.z - a.z * b.y,
   a.w * b.y + a.y * b.w + a.z * b.x - a.x * b.z,
   a.w * b.z + a.z * b.w + a.x * b.y - a.y * b.x⟩

/-- The quaternion of an angle-axis rotation: `w = cos(angle / 2)`,
`vec = sin(angle / 2) * axis`. -/
def AngleAxis.toQuaternion (sin cos : R → R) (aa : AngleAxis R) : Quaternion R :=
  let ha := aa.angle / 2
  let v := Vec3.smul (sin ha) aa.axis
  ⟨cos ha, v.x, v.y, v.z⟩

/-- `AngleAxisd * Quaterniond`: the angle-axis rotation, as a quaternion,
multiplied onto the quaternion from the left. -/
def AngleAxis.mulQuaternion (sin cos : R → R) (aa : AngleAxis R) (q : Quaternion R) :
    Quaternion R :=
  (aa.toQuaternion sin cos).mul q

/-- `Eigen::Translation3d(pos) * quat`: the isometry that rotates by `quat`
and then translates by `pos`. -/
def Isometry3.ofTranslationRotation (pos : Vec3 R) (quat : Quaternion R) : Isometry3 R :=
  let tx := 2 * quat.x
  let ty := 2 * quat.y
  let tz := 2 * quat.z
  let twx := tx * quat.w
  let twy := ty * quat.w
  let twz := tz * quat.w
  let txx := tx * quat.x
  let txy := ty * quat.x
  let txz := tz * quat.x
  let tyy := ty * quat.y
  let tyz := tz * quat.y
  let tzz := tz * quat.z
  { row0 := ⟨1 - (tyy + tzz), txy - twz, txz + twy⟩
    row1 := ⟨txy + twz, 1 - (txx + tzz), tyz - twx⟩
    row2 := ⟨txz - twy, tyz + twx, 1 - (txx + tyy)⟩
    translation := pos }

/-- `T * v` for an isometry and a point. -/
def Isometry3.apply (T : Isometry3 R) (v : Vec3 R) : Vec3 R :=
  Vec3.add
    ⟨T.row0.x * v.x + T.row0.y * v.y + T.row0.z * v.z,
     T.row1.x * v.x + T.row1.y * v.y + T.row1.z * v.z,
     T.row2.x * v.x + T.row2.y * v.y + T.row2.z * v.z⟩
    T.translation

end Rotations

/-! ## Interaction engine -/

/-- `enum class Interaction::Key`. -/
inductive Key where
  | kUndefined
  | kAlt
  | kCtrl
  | kMeta
  | kShift
  deriving DecidableEq, Repr

/-- `struct Interaction`; `idx_link` is an `int`, `modifier_keys` a set. -/
structure Interaction (R : Type) where
  key_object : String
  idx_link : Int
  pos_click_in_link : Vec3 R
  pos_mouse_in_world : Vec3 R
  modifier_keys : List Key
  key_down : String
  deriving DecidableEq, Repr

section Engine

variable {R : Type} [LinearOrderedField R]

/-- `ClickPositionAdjustment`. -/
def ClickPositionAdjustment (interaction : Interaction R) (pos : Vec3 R)
    (quat : Quaternion R) (gain : R) : Vec3 R :=
  let T_object_to_world := Isometry3.ofTranslationRotation pos quat
  let pos_click_in_world := T_object_to_world.apply interaction.pos_click_in_link
  Vec3.smul gain (interaction.pos_mouse_in_world.sub pos_click_in_world)

/-- `ClickOrientationAdjustment`. -/
def ClickOrientationAdjustment (sqrt : R → R) (interaction : Interaction R) (pos : Vec3 R)
    (quat : Quaternion R) (gain : R) : AngleAxis R :=
  let T_object_to_world := Isometry3.ofTranslationRotation pos quat
  let pos_click_in_world := T_object_to_world.apply interaction.pos_click_in_link
  let m_click := Vec3.smul gain (interaction.pos_mouse_in_world.sub pos_click_in_world)
  let r_com := (pos_click_in_world.sub T_object_to_world.translation).normalized sqrt
  let r_com_x_m_click := r_com.cross m_click
  ⟨r_com_x_m_click.norm sqrt, r_com_x_m_click.normalized sqrt⟩

/-- `ClickAdjustPose`: the pose `(*pos, *ori)` after the call. -/
def ClickAdjustPose (sqrt sin cos : R → R) (interaction : Interaction R)
    (pos : Vec3 R) (ori : Quaternion R) (gain_pos gain_ori : R) : Vec3 R × Quaternion R :=
  if interaction.modifier_keys.contains Key.kCtrl then
    (pos, (ClickOrientationAdjustment sqrt interaction pos ori gain_ori).mulQuaternion sin cos ori)
  else
    (pos.add (ClickPositionAdjustment interaction pos ori gain_pos), ori)

/-- The assignment `f_ext[key] = value` on a `std::map<size_t, _>`, kept
ordered by key. -/
def mapAssign {α : Type} (key : Nat) (value : α) : List (Nat × α) → List (Nat × α)
  | [] => [(key, value)]
  | (k, w) :: rest =>
    if key = k then (key, value) :: rest
    else if key < k then (key, value) :: (k, w) :: rest
    else (k, w) :: mapAssign key value rest

/-- The conversion of an `int` to `size_t` (64 bits). -/
def toSizeT (i : Int) : Nat := (i % 2 ^ 64).toNat

/-- `ComputeExternalForces`. Of the external library it takes the name of the
body `ab_name`, the forward kinematics `Position(ab, link, offset)` and the
action `Translation3d(p) * f` of a translation on a spatial force. -/
def ComputeExternalForces {ArticulatedBody : Type} (ab_name : ArticulatedBody → String)
    (Position : ArticulatedBody → Int → Vec3 R → Vec3 R)
    (translate : Vec3 R → SpatialForce R → SpatialForce R)
    (model_keys : ModelKeys) (ab : ArticulatedBody) (interaction : Interaction R)
    (gain : R) : List (Nat × SpatialForce R) :=
  let f_ext : List (Nat × SpatialForce R) := []
  if interaction.key_object ≠ model_keys.key_robots_prefix ++ ab_name ab then f_ext
  else
    let pos_click_in_world := Position ab interaction.idx_link interaction.pos_click_in_link
    let f := Vec3.smul gain (interaction.pos_mouse_in_world.sub pos_click_in_world)
    let f_click : SpatialForce R := ⟨f, Vec3.Zero⟩
    mapAssign (toSizeT interaction.idx_link) (translate pos_click_in_world f_click) f_ext

/-- The reference definition of `ComputeExternalForces`, in the words of the
specification: no force unless `key_object` is the key of the robot; otherwise
one entry, keyed by `idx_link`, holding the pure force
`gain * (pos_mouse_in_world - p)` with zero moment, translated to act at `p`,
the world position of the clicked point of the link. -/
def ComputeExternalForcesSpec {ArticulatedBody : Type} (ab_name : ArticulatedBody → String)
    (Position : ArticulatedBody → Int → Vec3 R → Vec3 R)
    (translate : Vec3 R → SpatialForce R → SpatialForce R)
    (model_keys : ModelKeys) (ab : ArticulatedBody) (interaction : Interaction R)
    (gain : R) : List (Nat × SpatialForce R) :=
  if interaction.key_object = model_keys.key_robots_prefix ++ ab_name ab then
    let p := Position ab interaction.idx_link interaction.pos_click_in_link
    [(interaction.idx_link.toNat,
      translate p ⟨Vec3.smul gain (interaction.pos_mouse_in_world.sub p), ⟨0, 0, 0⟩⟩)]
  else []

/-- `KeypressPositionAdjustment`. -/
def KeypressPositionAdjustment (interaction : Interaction R) (gain : R) : Vec3 R :=
  match interaction.key_down.data with
  | [] => Vec3.Zero
  | c :: _ =>
    let go (idx : Nat) (sign : Int) : Vec3 R := Vec3.smul ((sign : R) * gain) (Vec3.Unit idx)
    if c = 'a' then go 0 (-1)
    else if c = 'd' then go 0 1
    else if c = 'w' then go 1 1
    else if c = 's' then go 1 (-1)
    else if c = 'e' then go 2 1
    else if c = 'q' then go 2 (-1)
    else Vec3.Zero

/-- `KeypressOrientationAdjustment`. -/
def KeypressOrientationAdjustment (interaction : Interaction R) (gain : R) : AngleAxis R :=
  match interaction.key_down.data with
  | [] => AngleAxis.Identity
  | c :: _ =>
    let go (idx : Nat) (sign : Int) : AngleAxis R := ⟨(sign : R) * gain, Vec3.Unit idx⟩
    if c = 'j' then go 0 (-1)
    else if c = 'l' then go 0 1
    else if c = 'i' then go 1 1
    else if c = 'k' then go 1 (-1)
    else if c = 'o' then go 2 1
    else if c = 'u' then go 2 (-1)
    else AngleAxis.Identity

/-- `from_json(const nlohmann::json&, Interaction::Key&)` on the text of the
JSON string. -/
def Key.ofString (str_key : String) : Key :=
  if str_key = "alt" then .kAlt
  else if str_key = "ctrl" then .kCtrl
  else if str_key = "meta" then .kMeta
  else if str_key = "shift" then .kShift
  else .kUndefined

end Engine

end simulator

end redis_gl

namespace redis_gl.simulator

/-! ## Key schema -/

theorem kindPrefix_data (ns : String) (kind : EntityKind) :
    ((ModelKeys.ofNamespace ns).kindPrefix kind).data = ns.data ++ kindSegment kind := by
  cases kind <;> simp [ModelKeys.kindPrefix, ModelKeys.ofNamespace, kindSegment]

theorem entityKey_data (ns : String) (kind : EntityKind) (name : String) :
    (entityKey ns kind name).data = ns.data ++ (kindSegment kind ++ name.data) := by
  simp [entityKey, kindPrefix_data]

theorem kindSegment_head (kind : EntityKind) :
    ∃ rest, kindSegment kind = ':' :: rest := by
  cases kind <;> exact ⟨_, rfl⟩

/-- The segment of a kind is never the beginning of the segment of another
kind: what follows `::model::` ends at the next colon. -/
theorem kindSegment_inj (k k' : EntityKind) (n n' : List Char)
    (h : kindSegment k ++ n = kindSegment k' ++ n') : k = k' ∧ n = n' := by
  cases k <;> cases k' <;> simp [kindSegment] at h <;> simp [h]

/-- Two texts that agree and whose parts before the first colon are marked
agree part by part. -/
theorem colon_split (a b r r' : List Char) (ha : ':' ∉ a) (hb : ':' ∉ b)
    (h : a ++ ':' :: r = b ++ ':' :: r') : a = b ∧ r = r' := by
  induction a generalizing b with
  | nil =>
    cases b with
    | nil => simpa using h
    | cons y ys =>
      simp only [List.nil_append, List.cons_append, List.cons.injEq] at h
      exact absurd (h.1 ▸ List.mem_cons_self _ _) hb
  | cons x xs ih =>
    cases b with
    | nil =>
      simp only [List.nil_append, List.cons_append, List.cons.injEq] at h
      exact absurd (h.1 ▸ List.mem_cons_self _ _) ha
    | cons y ys =>
      simp only [List.cons_append, List.cons.injEq] at h
      have hxs : ':' ∉ xs := fun hm => ha (List.mem_cons_of_mem _ hm)
      have hys : ':' ∉ ys := fun hm => hb (List.mem_cons_of_mem _ hm)
      obtain ⟨e, rest⟩ := ih ys hxs hys h.2
      exact ⟨by rw [h.1, e], rest⟩

/-! ## The store client -/

theorem execCommand_replies_length (pending : List Command)
    (state : List (String × Value) × List (List String)) :
    (pending.foldl execCommand state).2.length
      = state.2.length + pending.countP Command.isScan := by
  induction pending generalizing state with
  | nil => simp
  | cons c cs ih =>
    rw [List.foldl_cons, ih, List.countP_cons]
    cases c with
    | set key value => simp [execCommand, Command.isScan]
    | del keys => simp [execCommand, Command.isScan]
    | sadd key values =>
      simp only [execCommand, Command.isScan]
      split <;> simp
    | srem key values =>
      simp only [execCommand, Command.isScan]
      split <;> simp
    | scan pattern => simp [execCommand, Command.isScan]; omega

theorem scanMatches_star (p key : String) :
    scanMatches (p ++ "*") key = startsWith key p := by
  have h : (p ++ "*").data = p.data ++ ['*'] := by simp
  simp [scanMatches, startsWith, h]

/-- The state in which `ClearModelKeys` ends: it returns, and the store is the
store at scan time without the keys of the four replies. -/
theorem ClearModelKeys_store (redis : RedisClient) (model_keys : ModelKeys) (commit : Bool) :
    ∃ redis', ClearModelKeys redis model_keys commit = some redis' ∧
      ∀ kv, kv ∈ redis'.store ↔
        (kv ∈ redis.commit.store ∧
          (commit = true →
            startsWith kv.1 model_keys.key_robots_prefix = false ∧
            startsWith kv.1 model_keys.key_objects_prefix = false ∧
            startsWith kv.1 model_keys.key_trajectories_prefix = false ∧
            startsWith kv.1 model_keys.key_cameras_prefix = false)) := by
  simp only [ClearModelKeys, RedisClient.scan, RedisClient.issue, RedisClient.commit,
    RedisClient.get, RedisClient.del, List.foldl_append, List.foldl_cons, List.foldl_nil,
    execCommand, List.countP_append, List.foldlM_cons, List.foldlM_nil, List.append_assoc,
    List.cons_append, List.nil_append, Command.isScan, List.countP_cons, List.countP_nil]
  have hlen := execCommand_replies_length redis.pending (redis.store, redis.replies)
  simp only [] at hlen
  generalize List.foldl execCommand (redis.store, redis.replies) redis.pending = st at *
  obtain ⟨S1, rep1⟩ := st
  simp only [ite_true, zero_add, ← Nat.add_assoc, ← hlen]
  cases commit
  · simp [List.getElem?_append_right]
  · simp [List.getElem?_append_right, List.getElem_append_right, Nat.add_assoc, execCommand,
      scanMatches_star]
    intro a b hab
    constructor
    · rintro ⟨h1, h2, h3, h4⟩
      exact ⟨h4 b hab, h3 b hab, h2 b hab, h1 b hab⟩
    · rintro ⟨h1, h2, h3, h4⟩
      exact ⟨fun _ _ => h4, fun _ _ => h3, fun _ _ => h2, fun _ _ => h1⟩

/-! ## Keys of entities -/

/-- C1 (as stated, refuted): key derivation is not injective over all strings.
The robot `x` of the namespace `a::model::robot` and the robot
`model::robot::x` of the namespace `a` get the same key. -/
theorem entityKey_collision :
    ("a::model::robot", EntityKind.robot, "x") ≠ ("a", EntityKind.robot, "model::robot::x") ∧
      entityKey "a::model::robot" .robot "x" = entityKey "a" .robot "model::robot::x" := by
  decide

/-- Equal keys come from equal triples, when the namespaces are equal or both
free of the character `:`. -/
theorem entityKey_eq_imp (ns ns' : String) (kind kind' : EntityKind) (name name' : String)
    (hns : ns = ns' ∨ (colonFree ns ∧ colonFree ns'))
    (hkey : entityKey ns kind name = entityKey ns' kind' name') :
    ns = ns' ∧ kind = kind' ∧ name = name' := by
  have hdata := congrArg String.data hkey
  rw [entityKey_data, entityKey_data] at hdata
  have key : ns = ns' ∧ kindSegment kind ++ name.data = kindSegment kind' ++ name'.data := by
    rcases hns with rfl | ⟨h, h'⟩
    · exact ⟨rfl, List.append_cancel_left hdata⟩
    · obtain ⟨r, hr⟩ := kindSegment_head kind
      obtain ⟨r', hr'⟩ := kindSegment_head kind'
      rw [hr, hr', List.cons_append, List.cons_append] at hdata
      obtain ⟨e, rest⟩ := colon_split _ _ _ _ h h' hdata
      refine ⟨String.ext e, ?_⟩
      rw [hr, hr', List.cons_append, List.cons_append, rest]
  obtain ⟨e, rest⟩ := kindSegment_inj _ _ _ _ key.2
  exact ⟨key.1, e, String.ext rest⟩

/-- C1 (amended): key derivation is injective on triples whose namespaces are
equal or both free of the character `:`: two such triples that differ in one
component at least (namespace, kind or name) get different keys; names range
over all strings. -/
theorem entityKey_injective (ns ns' : String) (kind kind' : EntityKind) (name name' : String)
    (hns : ns = ns' ∨ (colonFree ns ∧ colonFree ns'))
    (hne : (ns, kind, name) ≠ (ns', kind', name')) :
    entityKey ns kind name ≠ entityKey ns' kind' name' := by
  intro hkey
  obtain ⟨e1, e2, e3⟩ := entityKey_eq_imp ns ns' kind kind' name name' hns hkey
  exact hne (by rw [e1, e2, e3])

/-- C1 (amended), at the robot `arm` of the namespaces `lab` and `lab2`. -/
theorem entityKey_injective_witness :
    entityKey "lab" .robot "arm" = "lab::model::robot::arm" ∧
      entityKey "lab" .robot "arm" ≠ entityKey "lab2" .robot "arm" :=
  ⟨by decide,
   entityKey_injective "lab" "lab2" .robot .robot "arm" "arm"
    (Or.inr ⟨by decide, by decide⟩) (by decide)⟩

/-- C2 (as stated, refuted): the key of the camera `x` of the namespace
`a::model::robot` starts with the robots prefix of the different namespace `a`. -/
theorem namespace_scan_overlap :
    "a" ≠ "a::model::robot" ∧
      startsWith (entityKey "a::model::robot" .camera "x")
        (ModelKeys.key_robots_prefix (ModelKeys.ofNamespace "a")) = true := by
  decide

/-- C2 (amended): for two different namespaces free of the character `:`, no
key of an entity of the second starts with a kind prefix of the first, and
`ClearModelKeys` for the first keeps every such key, with its value, that the
store holds at scan time. -/
theorem namespace_scan_isolated (ns1 ns2 : String) (h1 : colonFree ns1) (h2 : colonFree ns2)
    (hne : ns1 ≠ ns2) (kind1 kind2 : EntityKind) (name : String) :
    startsWith (entityKey ns2 kind2 name) ((ModelKeys.ofNamespace ns1).kindPrefix kind1) = false ∧
      ∀ (redis : RedisClient) (commit : Bool) (value : Value),
        (entityKey ns2 kind2 name, value) ∈ redis.commit.store →
        ∃ redis', ClearModelKeys redis (ModelKeys.ofNamespace ns1) commit = some redis' ∧
          (entityKey ns2 kind2 name, value) ∈ redis'.store := by
  have hfree : ∀ kind1, startsWith (entityKey ns2 kind2 name)
      ((ModelKeys.ofNamespace ns1).kindPrefix kind1) = false := by
    intro kind1
    rw [Bool.eq_false_iff]
    intro hstart
    rw [startsWith, List.isPrefixOf_iff_prefix, kindPrefix_data, entityKey_data] at hstart
    obtain ⟨t, ht⟩ := hstart
    obtain ⟨r, hr⟩ := kindSegment_head kind1
    obtain ⟨r', hr'⟩ := kindSegment_head kind2
    rw [hr, hr', List.append_assoc, List.cons_append, List.cons_append] at ht
    exact hne (String.ext (colon_split _ _ _ _ h1 h2 ht).1)
  refine ⟨hfree kind1, ?_⟩
  intro redis commit value hmem
  obtain ⟨redis', hrun, hstore⟩ := ClearModelKeys_store redis (ModelKeys.ofNamespace ns1) commit
  refine ⟨redis', hrun, (hstore _).2 ⟨hmem, fun _ => ?_⟩⟩
  exact ⟨hfree .robot, hfree .object, hfree .trajectory, hfree .camera⟩

/-- C2 (amended), at the namespaces `lab` and `lab2`. -/
theorem namespace_scan_isolated_witness :
    startsWith (entityKey "lab2" .robot "arm")
      (ModelKeys.key_robots_prefix (ModelKeys.ofNamespace "lab")) = false :=
  (namespace_scan_isolated "lab" "lab2" (by decide) (by decide) (by decide)
    .robot .robot "arm").1

/-! ## Clearing a namespace -/

/-- C3: for every state of the client and every `ModelKeys` value,
`ClearModelKeys` with `commit = true` returns, and the store then holds no key
that starts with the robots, objects, trajectories or cameras prefix. The
entries under other keys that the store holds at scan time are kept. -/
theorem ClearModelKeys_clears (redis : RedisClient) (model_keys : ModelKeys) :
    ∃ redis', ClearModelKeys redis model_keys true = some redis' ∧
      (∀ key ∈ redis'.keys,
        startsWith key model_keys.key_robots_prefix = false ∧
        startsWith key model_keys.key_objects_prefix = false ∧
        startsWith key model_keys.key_trajectories_prefix = false ∧
        startsWith key model_keys.key_cameras_prefix = false) ∧
      (∀ kv ∈ redis.commit.store,
        startsWith kv.1 model_keys.key_robots_prefix = false →
        startsWith kv.1 model_keys.key_objects_prefix = false →
        startsWith kv.1 model_keys.key_trajectories_prefix = false →
        startsWith kv.1 model_keys.key_cameras_prefix = false →
        kv ∈ redis'.store) := by
  obtain ⟨redis', hrun, hstore⟩ := ClearModelKeys_store redis model_keys true
  refine ⟨redis', hrun, ?_, ?_⟩
  · intro key hkey
    obtain ⟨kv, hkv, rfl⟩ := List.mem_map.1 hkey
    exact ((hstore kv).1 hkv).2 rfl
  · intro kv hkv h1 h2 h3 h4
    exact (hstore kv).2 ⟨hkv, fun _ => ⟨h1, h2, h3, h4⟩⟩

/-! ## Registration and read-back -/

theorem lookup_insertMember_self {α : Type} (key : String) (value : α)
    (members : List (String × α)) :
    (insertMember key value members).lookup key = some value := by
  induction members with
  | nil => simp [insertMember, List.lookup]
  | cons kw rest ih =>
    obtain ⟨k, w⟩ := kw
    by_cases h : key = k
    · simp [insertMember, h, List.lookup]
    · have hb : (key == k) = false := by simpa using h
      simp [insertMember, h, List.lookup, hb, ih]

/-- A document that was set is what a read returns once the queue is
flushed. -/
theorem read_commit_set (redis : RedisClient) (key : String) (doc : Json) :
    (redis.set key doc).commit.read key = some doc := by
  simp [RedisClient.set, RedisClient.issue, RedisClient.commit, RedisClient.read,
    List.foldl_append, execCommand, lookup_insertMember_self]

/-- A second flush changes nothing in the store. -/
theorem commit_commit_store (redis : RedisClient) :
    redis.commit.commit.store = redis.commit.store := by
  simp [RedisClient.commit]

theorem read_commit_commit (redis : RedisClient) (key : String) :
    redis.commit.commit.read key = redis.commit.read key := by
  simp [RedisClient.read, commit_commit_store]

/-- The read-back after a `set` followed by a flush when `commit` is set, and
by the flush of the reader in either case. -/
theorem read_after_set (redis : RedisClient) (key : String) (doc : Json) (commit : Bool) :
    (if commit then (redis.set key doc).commit else redis.set key doc).commit.read key
      = some doc := by
  cases commit
  · simpa using read_commit_set redis key doc
  · simp [read_commit_commit, read_commit_set]

/-- C4: the document that `RegisterCamera(redis, model_keys, camera)` writes
under the cameras prefix plus the name has exactly the six fields of the
camera and decodes with `from_json` to the camera; the document that
`RegisterObject(redis, model_keys, object)` writes under the objects prefix plus
the name decodes to the object, given that the codec of the graphics list
round-trips. The read takes place after a flush of the client. -/
theorem descriptor_round_trip {Graphics : Type} (graphics_to_json : List Graphics → Json)
    (graphics_from_json : Json → Except JsonError (List Graphics))
    (hcodec : ∀ graphics, graphics_from_json (graphics_to_json graphics) = .ok graphics)
    (redis : RedisClient) (model_keys : ModelKeys) (commit : Bool) :
    (∀ camera : CameraModel, ∃ redis' doc,
      RegisterCamera redis model_keys camera commit = .ok redis' ∧
      redis'.commit.read (model_keys.key_cameras_prefix ++ camera.name) = some doc ∧
      doc = .object [("name", .string camera.name), ("key_pos", .string camera.key_pos),
        ("key_ori", .string camera.key_ori), ("key_intrinsic", .string camera.key_intrinsic),
        ("key_depth_image", .string camera.key_depth_image),
        ("key_rgb_image", .string camera.key_rgb_image)] ∧
      CameraModel.from_json doc = .ok camera) ∧
    (∀ object : ObjectModel Graphics, ∃ redis' doc,
      RegisterObject graphics_to_json redis model_keys object commit = .ok redis' ∧
      redis'.commit.read (model_keys.key_objects_prefix ++ object.name) = some doc ∧
      doc = .object [("name", .string object.name),
        ("graphics", graphics_to_json object.graphics),
        ("key_pos", .string object.key_pos), ("key_ori", .string object.key_ori)] ∧
      ObjectModel.from_json graphics_from_json doc = .ok object) := by
  constructor
  · intro camera
    exact ⟨_, _, rfl, read_after_set redis _ _ commit, rfl, rfl⟩
  · intro object
    refine ⟨_, _, rfl, read_commit_set redis _ _, rfl, ?_⟩
    simp [ObjectModel.from_json, Json.at, List.lookup, Json.get_string, hcodec, bind,
      Except.bind, pure, Except.pure]

/-- C4, at an object with one graphics primitive, a primitive being given by
its JSON encoding. -/
theorem descriptor_round_trip_witness :
    ∃ redis' doc,
      RegisterObject Json.array {} (ModelKeys.ofNamespace "lab")
        ⟨"box", [Json.string "cube"], "box::pos", "box::ori"⟩ true = .ok redis' ∧
      redis'.commit.read ("lab::model::object::" ++ "box") = some doc ∧
      doc = .object [("name", .string "box"), ("graphics", .array [Json.string "cube"]),
        ("key_pos", .string "box::pos"), ("key_ori", .string "box::ori")] ∧
      ObjectModel.from_json
        (fun json => match json with
          | .array elems => .ok elems
          | _ => .error .type_error) doc
        = .ok ⟨"box", [Json.string "cube"], "box::pos", "box::ori"⟩ :=
  (descriptor_round_trip Json.array
    (fun json => match json with
      | .array elems => .ok elems
      | _ => .error .type_error)
    (fun _ => rfl) {} (ModelKeys.ofNamespace "lab") true).2
    ⟨"box", [Json.string "cube"], "box::pos", "box::ori"⟩

/-- C5 (as stated, refuted): the document that the field-wise `RegisterCamera`
writes for the camera `cam` of the namespace `lab` does not decode: `from_json`
raises `out_of_range` at the member `name`. -/
theorem RegisterCameraFields_not_decodable :
    (RegisterCameraFields {} (ModelKeys.ofNamespace "lab") "cam" "cam::pos" "cam::ori"
        "cam::intrinsic" "cam::depth" "cam::rgb" true).map
      (fun redis => (redis.read "lab::model::camera::cam").map CameraModel.from_json)
      = .ok (some (.error (.out_of_range "name"))) := by
  rfl

/-- C5 (amended): the document that the field-wise `RegisterCamera` writes under
the cameras prefix plus the name has exactly the five key fields, with the given
values, and no member `name`: `from_json` raises `out_of_range` at `name`, and
decodes the document to the descriptor of that name and those keys once the
member `name` is set. Likewise the document of the field-wise `RegisterObject`
has exactly the members `graphics`, `key_pos`, `key_ori`, and decodes to the
descriptor of that name once `name` is set, given that the codec of the
graphics list round-trips. -/
theorem fieldwise_documents {Graphics : Type} (graphics_to_json : List Graphics → Json)
    (graphics_from_json : Json → Except JsonError (List Graphics))
    (hcodec : ∀ graphics, graphics_from_json (graphics_to_json graphics) = .ok graphics)
    (redis : RedisClient) (model_keys : ModelKeys) (commit : Bool) :
    (∀ name key_pos key_ori key_intrinsic key_depth_image key_rgb_image : String,
      ∃ redis' doc,
        RegisterCameraFields redis model_keys name key_pos key_ori key_intrinsic
          key_depth_image key_rgb_image commit = .ok redis' ∧
        redis'.commit.read (model_keys.key_cameras_prefix ++ name) = some doc ∧
        doc = .object [("key_pos", .string key_pos), ("key_ori", .string key_ori),
          ("key_intrinsic", .string key_intrinsic),
          ("key_depth_image", .string key_depth_image),
          ("key_rgb_image", .string key_rgb_image)] ∧
        CameraModel.from_json doc = .error (.out_of_range "name") ∧
        (doc.set "name" (.string name) >>= CameraModel.from_json)
          = .ok ⟨name, key_pos, key_ori, key_intrinsic, key_depth_image, key_rgb_image⟩) ∧
    (∀ (name : String) (graphics : List Graphics) (key_pos key_ori : String),
      ∃ redis' doc,
        RegisterObjectFields graphics_to_json redis model_keys name graphics key_pos key_ori
          commit = .ok redis' ∧
        redis'.commit.read (model_keys.key_objects_prefix ++ name) = some doc ∧
        doc = .object [("graphics", graphics_to_json graphics), ("key_pos", .string key_pos),
          ("key_ori", .string key_ori)] ∧
        ObjectModel.from_json graphics_from_json doc = .error (.out_of_range "name") ∧
        (doc.set "name" (.string name) >>= ObjectModel.from_json graphics_from_json)
          = .ok ⟨name, graphics, key_pos, key_ori⟩) := by
  constructor
  · intro name key_pos key_ori key_intrinsic key_depth_image key_rgb_image
    exact ⟨_, _, rfl, read_after_set redis _ _ commit, rfl, rfl, rfl⟩
  · intro name graphics key_pos key_ori
    refine ⟨_, _, rfl, read_after_set redis _ _ commit, rfl, rfl, ?_⟩
    simp [ObjectModel.from_json, Json.set, insertMember, Json.at, List.lookup,
      Json.get_string, hcodec, bind, Except.bind, pure, Except.pure]

/-- C5 (amended), at an object with one graphics primitive, a primitive being
given by its JSON encoding. -/
theorem fieldwise_documents_witness :
    ∃ redis' doc,
      RegisterObjectFields Json.array {} (ModelKeys.ofNamespace "lab") "box"
        [Json.string "cube"] "box::pos" "box::ori" true = .ok redis' ∧
      redis'.commit.read ("lab::model::object::" ++ "box") = some doc ∧
      doc = .object [("graphics", .array [Json.string "cube"]),
        ("key_pos", .string "box::pos"), ("key_ori", .string "box::ori")] ∧
      ObjectModel.from_json
        (fun json => match json with
          | .array elems => .ok elems
          | _ => .error .type_error) doc = .error (.out_of_range "name") ∧
      (doc.set "name" (.string "box") >>= ObjectModel.from_json
        (fun json => match json with
          | .array elems => .ok elems
          | _ => .error .type_error))
        = .ok ⟨"box", [Json.string "cube"], "box::pos", "box::ori"⟩ :=
  (fieldwise_documents Json.array
    (fun json => match json with
      | .array elems => .ok elems
      | _ => .error .type_error)
    (fun _ => rfl) {} (ModelKeys.ofNamespace "lab") true).2
    "box" [Json.string "cube"] "box::pos" "box::ori"

/-! ## The commit flag -/

/-- C6 (failing input): `RegisterObject(redis, model_keys, object, commit)` with
`commit = true` issues its `set` and no `commit()`: the document stays in the
queue of the client. -/
theorem RegisterObject_ignores_commit {Graphics : Type}
    (graphics_to_json : List Graphics → Json) (redis : RedisClient) (model_keys : ModelKeys)
    (object : ObjectModel Graphics) :
    ∃ redis' doc,
      RegisterObject graphics_to_json redis model_keys object true = .ok redis' ∧
      redis'.log = redis.log ++
        [.command (.set (model_keys.key_objects_prefix ++ object.name) doc)] ∧
      redis'.pending = redis.pending ++
        [.set (model_keys.key_objects_prefix ++ object.name) doc] ∧
      redis'.store = redis.store :=
  ⟨_, _, rfl, rfl, rfl, rfl⟩

/-- The other registration operations honour the flag: each adds to the log one
write, delete or set update, then `commit()` exactly when `commit` is set. -/
theorem registration_honours_commit {Graphics ArticulatedBody : Type}
    (graphics_name : Graphics → String) (graphics_to_json : List Graphics → Json)
    (ab_name : ArticulatedBody → String) (ab_to_json : ArticulatedBody → Json)
    (redis : RedisClient) (model_keys : ModelKeys) (commit : Bool) :
    (∀ robot, ∃ redis' key doc,
      RegisterRobot ab_name ab_to_json redis model_keys robot commit = .ok redis' ∧
      redis'.log = honoured redis.log (.set key doc) commit) ∧
    (∀ ab key_q key_pos key_ori, ∃ redis' key doc,
      RegisterRobotFields ab_name ab_to_json redis model_keys ab key_q key_pos key_ori commit
        = .ok redis' ∧
      redis'.log = honoured redis.log (.set key doc) commit) ∧
    (∀ name graphics key_pos key_ori, ∃ redis' key doc,
      RegisterObjectFields graphics_to_json redis model_keys name graphics key_pos key_ori
        commit = .ok redis' ∧
      redis'.log = honoured redis.log (.set key doc) commit) ∧
    (∀ graphics key_pos key_ori, ∃ redis' key doc,
      RegisterObjectGraphics graphics_name graphics_to_json redis model_keys graphics key_pos
        key_ori commit = .ok redis' ∧
      redis'.log = honoured redis.log (.set key doc) commit) ∧
    (∀ name key_pos, ∃ redis' key doc,
      RegisterTrajectory redis model_keys name key_pos commit = .ok redis' ∧
      redis'.log = honoured redis.log (.set key doc) commit) ∧
    (∀ name key_pos key_ori key_intrinsic key_depth_image key_rgb_image, ∃ redis' key doc,
      RegisterCameraFields redis model_keys name key_pos key_ori key_intrinsic
        key_depth_image key_rgb_image commit = .ok redis' ∧
      redis'.log = honoured redis.log (.set key doc) commit) ∧
    (∀ camera, ∃ redis' key doc,
      RegisterCamera redis model_keys camera commit = .ok redis' ∧
      redis'.log = honoured redis.log (.set key doc) commit) ∧
    (∃ redis' key doc,
      RegisterModelKeys redis model_keys commit = .ok redis' ∧
      redis'.log = honoured redis.log (.set key doc) commit) ∧
    (∃ keys, (UnregisterModelKeys redis model_keys commit).log
      = honoured redis.log (.del keys) commit) ∧
    (∀ path, ∃ key, (RegisterResourcePath redis path commit).log
      = honoured redis.log (.sadd key [path]) commit) ∧
    (∀ path, ∃ key, (UnregisterResourcePath redis path commit).log
      = honoured redis.log (.srem key [path]) commit) := by
  cases commit <;>
    exact ⟨fun _ => ⟨_, _, _, rfl, rfl⟩, fun _ _ _ _ => ⟨_, _, _, rfl, rfl⟩,
      fun _ _ _ _ => ⟨_, _, _, rfl, rfl⟩, fun _ _ _ => ⟨_, _, _, rfl, rfl⟩,
      fun _ _ => ⟨_, _, _, rfl, rfl⟩, fun _ _ _ _ _ _ => ⟨_, _, _, rfl, rfl⟩,
      fun _ => ⟨_, _, _, rfl, rfl⟩, ⟨_, _, _, rfl, rfl⟩, ⟨_, rfl⟩,
      fun _ => ⟨_, rfl⟩, fun _ => ⟨_, rfl⟩⟩

/-! ## Interaction engine -/

section Engine

variable {R : Type} [LinearOrderedField R]

/-- C7: `ClickAdjustPose` is mutually exclusive per call. With `kCtrl` among the
modifier keys the position is the input position and the orientation is
`ClickOrientationAdjustment` multiplied from the left onto the input
orientation; without it the orientation is the input orientation and the
position is the input position plus `ClickPositionAdjustment`. The other
modifier keys do not matter: two sets of modifier keys that agree on `kCtrl`
give the same pose. -/
theorem ClickAdjustPose_exclusive (sqrt sin cos : R → R) (interaction : Interaction R)
    (pos : Vec3 R) (ori : Quaternion R) (gain_pos gain_ori : R) :
    (Key.kCtrl ∈ interaction.modifier_keys →
      ClickAdjustPose sqrt sin cos interaction pos ori gain_pos gain_ori
        = (pos, (ClickOrientationAdjustment sqrt interaction pos ori gain_ori).mulQuaternion
            sin cos ori)) ∧
    (Key.kCtrl ∉ interaction.modifier_keys →
      ClickAdjustPose sqrt sin cos interaction pos ori gain_pos gain_ori
        = (pos.add (ClickPositionAdjustment interaction pos ori gain_pos), ori)) ∧
    (∀ keys : List Key, (Key.kCtrl ∈ keys ↔ Key.kCtrl ∈ interaction.modifier_keys) →
      ClickAdjustPose sqrt sin cos { interaction with modifier_keys := keys } pos ori
          gain_pos gain_ori
        = ClickAdjustPose sqrt sin cos interaction pos ori gain_pos gain_ori) := by
  refine ⟨fun h => ?_, fun h => ?_, fun keys hkeys => ?_⟩
  · simp [ClickAdjustPose, h]
  · simp [ClickAdjustPose, h]
  · by_cases h : Key.kCtrl ∈ interaction.modifier_keys
    · simp [ClickAdjustPose, h, hkeys, ClickOrientationAdjustment]
    · simp [ClickAdjustPose, h, hkeys, ClickPositionAdjustment]

/-- C8: `ComputeExternalForces` returns the empty map whenever `key_object`
differs from the robots prefix plus the name of the body, for every link and
mouse position, and equals its reference definition for every link index from
0 up to the largest `int`. -/
theorem ComputeExternalForces_eq_spec {ArticulatedBody : Type}
    (ab_name : ArticulatedBody → String) (Position : ArticulatedBody → Int → Vec3 R → Vec3 R)
    (translate : Vec3 R → SpatialForce R → SpatialForce R)
    (model_keys : ModelKeys) (ab : ArticulatedBody) (interaction : Interaction R) (gain : R) :
    (interaction.key_object ≠ model_keys.key_robots_prefix ++ ab_name ab →
      ComputeExternalForces ab_name Position translate model_keys ab interaction gain = []) ∧
    (0 ≤ interaction.idx_link → interaction.idx_link < 2 ^ 31 →
      ComputeExternalForces ab_name Position translate model_keys ab interaction gain
        = ComputeExternalForcesSpec ab_name Position translate model_keys ab interaction
            gain) := by
  refine ⟨fun h => ?_, fun h0 h1 => ?_⟩
  · simp [ComputeExternalForces, h]
  · have hidx : toSizeT interaction.idx_link = interaction.idx_link.toNat := by
      unfold toSizeT
      rw [Int.emod_eq_of_lt h0 (by omega)]
    by_cases h : interaction.key_object = model_keys.key_robots_prefix ++ ab_name ab
    · simp [ComputeExternalForces, ComputeExternalForcesSpec, h, hidx, mapAssign, Vec3.Zero]
    · simp [ComputeExternalForces, ComputeExternalForcesSpec, h]

end Engine

/-- C7, at a drag with `shift` and `ctrl` held: the position stays. -/
theorem ClickAdjustPose_exclusive_witness :
    ClickAdjustPose (R := ℚ) (fun x => x) (fun x => x) (fun x => x)
        ⟨"lab::model::object::box", 0, ⟨1, 0, 0⟩, ⟨1, 1, 0⟩, [.kShift, .kCtrl], ""⟩
        ⟨0, 0, 0⟩ ⟨1, 0, 0, 0⟩ 1 1
      = (⟨0, 0, 0⟩,
          (ClickOrientationAdjustment (fun x => x)
            ⟨"lab::model::object::box", 0, ⟨1, 0, 0⟩, ⟨1, 1, 0⟩, [.kShift, .kCtrl], ""⟩
            ⟨0, 0, 0⟩ ⟨1, 0, 0, 0⟩ 1).mulQuaternion (fun x => x) (fun x => x) ⟨1, 0, 0, 0⟩) :=
  (ClickAdjustPose_exclusive (R := ℚ) (fun x => x) (fun x => x) (fun x => x)
    ⟨"lab::model::object::box", 0, ⟨1, 0, 0⟩, ⟨1, 1, 0⟩, [.kShift, .kCtrl], ""⟩
    ⟨0, 0, 0⟩ ⟨1, 0, 0, 0⟩ 1 1).1 (by decide)

/-- C8, the scenario of the specification: `key_object` is the key of the robot,
`idx_link = 2`, click at `(0,0,0)`, mouse at `(1,0,0)`, gain 100, the clicked
point at the world origin; the map is exactly `2 ↦ force (100,0,0)`, moment
`(0,0,0)`. The body is given by its name, the kinematics places every link frame at
the world frame, and a translation by `p` adds `p × f` to the moment. -/
theorem ComputeExternalForces_scenario :
    ComputeExternalForces (R := ℚ) (fun name : String => name) (fun _ _ offset => offset)
        (fun p f => ⟨f.linear, f.angular.add (p.cross f.linear)⟩)
        (ModelKeys.ofNamespace "lab") "arm"
        ⟨"lab::model::robot::arm", 2, ⟨0, 0, 0⟩, ⟨1, 0, 0⟩, [], ""⟩ 100
      = [(2, ⟨⟨100, 0, 0⟩, ⟨0, 0, 0⟩⟩)] := by
  rw [(ComputeExternalForces_eq_spec (R := ℚ) (fun name : String => name)
    (fun _ _ offset => offset) (fun p f => ⟨f.linear, f.angular.add (p.cross f.linear)⟩)
    (ModelKeys.ofNamespace "lab") "arm"
    ⟨"lab::model::robot::arm", 2, ⟨0, 0, 0⟩, ⟨1, 0, 0⟩, [], ""⟩ 100).2 (by decide) (by decide)]
  have hkey : "lab::model::robot::arm"
      = ModelKeys.key_robots_prefix (ModelKeys.ofNamespace "lab") ++ "arm" := by
    decide
  simp [ComputeExternalForcesSpec, ← hkey, Vec3.smul, Vec3.sub, Vec3.add, Vec3.cross]

section Keypress

variable {R : Type} [LinearOrderedField R]

/-- C9: the keypress table. For every gain, `a`, `d`, `w`, `s`, `e`, `q` give the
translations `(-gain,0,0)`, `(gain,0,0)`, `(0,gain,0)`, `(0,-gain,0)`,
`(0,0,gain)`, `(0,0,-gain)` and the identity rotation; `j`, `l`, `i`, `k`, `o`,
`u` give the rotations of angle `-gain`, `gain` about x, `gain`, `-gain` about
y, `gain`, `-gain` about z, and the zero translation. -/
theorem keypress_table (interaction : Interaction R) (gain : R) :
    (KeypressPositionAdjustment { interaction with key_down := "a" } gain = ⟨-gain, 0, 0⟩ ∧
     KeypressPositionAdjustment { interaction with key_down := "d" } gain = ⟨gain, 0, 0⟩ ∧
     KeypressPositionAdjustment { interaction with key_down := "w" } gain = ⟨0, gain, 0⟩ ∧
     KeypressPositionAdjustment { interaction with key_down := "s" } gain = ⟨0, -gain, 0⟩ ∧
     KeypressPositionAdjustment { interaction with key_down := "e" } gain = ⟨0, 0, gain⟩ ∧
     KeypressPositionAdjustment { interaction with key_down := "q" } gain = ⟨0, 0, -gain⟩) ∧
    (KeypressOrientationAdjustment { interaction with key_down := "j" } gain
        = ⟨-gain, ⟨1, 0, 0⟩⟩ ∧
     KeypressOrientationAdjustment { interaction with key_down := "l" } gain
        = ⟨gain, ⟨1, 0, 0⟩⟩ ∧
     KeypressOrientationAdjustment { interaction with key_down := "i" } gain
        = ⟨gain, ⟨0, 1, 0⟩⟩ ∧
     KeypressOrientationAdjustment { interaction with key_down := "k" } gain
        = ⟨-gain, ⟨0, 1, 0⟩⟩ ∧
     KeypressOrientationAdjustment { interaction with key_down := "o" } gain
        = ⟨gain, ⟨0, 0, 1⟩⟩ ∧
     KeypressOrientationAdjustment { interaction with key_down := "u" } gain
        = ⟨-gain, ⟨0, 0, 1⟩⟩) ∧
    (∀ key ∈ ["a", "d", "w", "s", "e", "q"],
      KeypressOrientationAdjustment { interaction with key_down := key } gain
        = AngleAxis.Identity) ∧
    (∀ key ∈ ["j", "l", "i", "k", "o", "u"],
      KeypressPositionAdjustment { interaction with key_down := key } gain = Vec3.Zero) := by
  refine ⟨?_, ?_, ?_, ?_⟩
  · simp [KeypressPositionAdjustment, Vec3.smul, Vec3.Unit]
  · simp [KeypressOrientationAdjustment, Vec3.Unit]
  · intro key hkey
    simp only [List.mem_cons, List.mem_singleton, List.not_mem_nil, or_false] at hkey
    rcases hkey with rfl | rfl | rfl | rfl | rfl | rfl <;>
      simp [KeypressOrientationAdjustment]
  · intro key hkey
    simp only [List.mem_cons, List.mem_singleton, List.not_mem_nil, or_false] at hkey
    rcases hkey with rfl | rfl | rfl | rfl | rfl | rfl <;>
      simp [KeypressPositionAdjustment]

/-- C10 (amended): a `key_down` that is empty or whose first character is none
of `a`, `d`, `w`, `s`, `e`, `q` gives the exact zero translation, and one that is
empty or whose first character is none of `j`, `l`, `i`, `k`, `o`, `u` gives the
identity rotation, for every gain. Upper-case letters are among them. -/
theorem keypress_inert (interaction : Interaction R) (gain : R) :
    ((∀ c, interaction.key_down.data.head? = some c → c ∉ ['a', 'd', 'w', 's', 'e', 'q']) →
      KeypressPositionAdjustment interaction gain = Vec3.Zero) ∧
    ((∀ c, interaction.key_down.data.head? = some c → c ∉ ['j', 'l', 'i', 'k', 'o', 'u']) →
      KeypressOrientationAdjustment interaction gain = AngleAxis.Identity) := by
  constructor
  · intro h
    unfold KeypressPositionAdjustment
    cases hd : interaction.key_down.data with
    | nil => rfl
    | cons c rest =>
      have hc := h c (by simp [hd])
      simp only [List.mem_cons, List.mem_singleton, List.not_mem_nil, or_false, not_or] at hc
      simp [hc]
  · intro h
    unfold KeypressOrientationAdjustment
    cases hd : interaction.key_down.data with
    | nil => rfl
    | cons c rest =>
      have hc := h c (by simp [hd])
      simp only [List.mem_cons, List.mem_singleton, List.not_mem_nil, or_false, not_or] at hc
      simp [hc]

end Keypress

/-- C10 (as stated, refuted): `alt` is none of the six one-character strings,
and `KeypressPositionAdjustment` with `key_down = "alt"` and gain 1 returns
`(-1,0,0)`, the translation of the key `a`, not the zero vector. -/
theorem keypress_alt_not_inert :
    "alt" ∉ ["a", "d", "w", "s", "e", "q"] ∧
      KeypressPositionAdjustment (R := ℚ) ⟨"", 0, ⟨0, 0, 0⟩, ⟨0, 0, 0⟩, [], "alt"⟩ 1
        = ⟨-1, 0, 0⟩ ∧
      KeypressPositionAdjustment (R := ℚ) ⟨"", 0, ⟨0, 0, 0⟩, ⟨0, 0, 0⟩, [], "alt"⟩ 1
        ≠ Vec3.Zero := by
  refine ⟨by decide, ?_, ?_⟩
  · simp [KeypressPositionAdjustment, Vec3.smul, Vec3.Unit]
  · simp [KeypressPositionAdjustment, Vec3.smul, Vec3.Unit, Vec3.Zero]

/-- C10 (amended), at the upper-case key `A` and at the empty `key_down`. -/
theorem keypress_inert_witness :
    KeypressPositionAdjustment (R := ℚ) ⟨"", 0, ⟨0, 0, 0⟩, ⟨0, 0, 0⟩, [], "A"⟩ 1 = Vec3.Zero ∧
      KeypressOrientationAdjustment (R := ℚ) ⟨"", 0, ⟨0, 0, 0⟩, ⟨0, 0, 0⟩, [], ""⟩ 1
        = AngleAxis.Identity :=
  ⟨(keypress_inert (R := ℚ) ⟨"", 0, ⟨0, 0, 0⟩, ⟨0, 0, 0⟩, [], "A"⟩ 1).1 (by decide),
   (keypress_inert (R := ℚ) ⟨"", 0, ⟨0, 0, 0⟩, ⟨0, 0, 0⟩, [], ""⟩ 1).2 (by decide)⟩

end redis_gl.simulator
